import Mathlib

/-!
Verification of the POSIX socket network-target backend
(`src/config/have_sys_socket.c`).

The C code is embedded shallowly.  System-call outcomes are supplied by an
oracle `OS` (results of `socket`, `getaddrinfo`, `connect`, `send` together
with the error codes observed on failure).  Each C function becomes a Lean
function that returns its C return value, the updated `network_target`
state, and a trace of observable events (`lock`/`unlock`, descriptor
closes, `freeaddrinfo`, error-sink invocations) in program order.
-/

namespace SysSocket

/-- Outcomes the operating system produces during one open-socket attempt
and one send call: the descriptor returned by `socket` (−1 on failure),
the `getaddrinfo` status (0 on success), the `connect` result (−1 on
failure), the `send` result (−1 on failure), and the error codes read on
each failing call. -/
structure OS where
  socketRes : Int
  socketErrno : Int
  gaiRes : Int
  connectRes : Int
  connectErrno : Int
  sendRes : Int
  sendErrno : Int
deriving DecidableEq, Repr

/-- The kind tag handed to the error sink alongside a numeric code:
an OS `errno` or a resolver status (`L10N_ERRNO_ERROR_CODE_TYPE` vs
`L10N_GETADDRINFO_RETURN_ERROR_CODE_TYPE` in the source). -/
inductive CodeKind where
  | errnoKind
  | gaiStatusKind
deriving DecidableEq, Repr

/-- Observable events of the embedded code, in program order:
system calls with their arguments and results, resource releases,
lock operations and error-sink invocations. -/
inductive Event where
  | socketCall (domain ty protocol res : Int)
  | getaddrinfoCall (res : Int)
  | connectCall (fd res : Int)
  | closeFd (fd : Int)
  | freeaddrinfoCall
  | lockT
  | unlockT
  | destroyMutex
  | sendCall (fd : Int) (len : Nat)
  | raiseSocketFailure (code : Int) (kind : CodeKind)
  | raiseAddressFailure (code : Int) (kind : CodeKind)
  | raiseConnectFailure (code : Int) (kind : CodeKind)
  | raiseSendFailure (code : Int) (kind : CodeKind)
deriving DecidableEq, Repr

/-- The `network_target` struct fields this backend touches:
`destination` and `port` (set at construction) and the socket `handle`
(−1 is the "not connected" sentinel).  The mutex is represented only
through the `lockT`/`unlockT`/`destroyMutex` trace events. -/
structure network_target where
  destination : String
  port : String
  handle : Int
deriving DecidableEq, Repr

/-- `AF_INET` (IPv4 address family). -/
def AF_INET : Int := 2

/-- `AF_INET6` (IPv6 address family). -/
def AF_INET6 : Int := 10

/-- `SOCK_STREAM` (TCP socket type). -/
def SOCK_STREAM : Int := 1

/-- `SOCK_DGRAM` (UDP socket type). -/
def SOCK_DGRAM : Int := 2

/-- Embedding of `sys_socket_open_socket`: create a socket, resolve
`destination:port` with hints restricted to the given
(domain, type, protocol), connect to the first candidate, and return the
descriptor, releasing exactly the resources acquired on each exit path
(`fail`, `fail_addr`, `fail_connect` and success labels of the C code). -/
def sys_socket_open_socket (destination port : String)
    (domain ty protocol : Int) (os : OS) : Int × List Event :=
  let handle := os.socketRes
  if handle = -1 then
    (-1, [Event.socketCall domain ty protocol handle,
          Event.raiseSocketFailure os.socketErrno CodeKind.errnoKind])
  else if os.gaiRes ≠ 0 then
    (-1, [Event.socketCall domain ty protocol handle,
          Event.getaddrinfoCall os.gaiRes,
          Event.raiseAddressFailure os.gaiRes CodeKind.gaiStatusKind,
          Event.closeFd handle])
  else if os.connectRes = -1 then
    (-1, [Event.socketCall domain ty protocol handle,
          Event.getaddrinfoCall os.gaiRes,
          Event.connectCall handle os.connectRes,
          Event.raiseConnectFailure os.connectErrno CodeKind.errnoKind,
          Event.freeaddrinfoCall,
          Event.closeFd handle])
  else
    (handle, [Event.socketCall domain ty protocol handle,
              Event.getaddrinfoCall os.gaiRes,
              Event.connectCall handle os.connectRes,
              Event.freeaddrinfoCall])

/-- Embedding of `sys_socket_close_network_target`: close the descriptor
when the handle is not the sentinel, then destroy the mutex. -/
def sys_socket_close_network_target (target : network_target) : List Event :=
  (if target.handle ≠ -1 then [Event.closeFd target.handle] else [])
    ++ [Event.destroyMutex]

/-- Embedding of `sys_socket_init_network_target`: set the handle to the
sentinel (the mutex initialisation has no observable effect modelled
here). -/
def sys_socket_init_network_target (target : network_target) :
    network_target :=
  { target with handle := -1 }

/-- Embedding of `sys_socket_network_target_is_open`: the handle differs
from the sentinel. -/
def sys_socket_network_target_is_open (target : network_target) : Bool :=
  target.handle ≠ -1

/-- Embedding of `sys_socket_open_tcp4_target`: under the lock, run the
open-socket primitive with (`AF_INET`, `SOCK_STREAM`, 0) and store its
result into the handle; return the target when the result is not −1 and
NULL (`none`) otherwise. -/
def sys_socket_open_tcp4_target (os : OS) (target : network_target) :
    network_target × Option network_target × List Event :=
  let result := sys_socket_open_socket target.destination target.port
                  AF_INET SOCK_STREAM 0 os
  let t := { target with handle := result.1 }
  (t, if result.1 = -1 then none else some t,
   [Event.lockT] ++ result.2 ++ [Event.unlockT])

/-- Embedding of `sys_socket_open_tcp6_target` (as `tcp4`, with
(`AF_INET6`, `SOCK_STREAM`, 0)). -/
def sys_socket_open_tcp6_target (os : OS) (target : network_target) :
    network_target × Option network_target × List Event :=
  let result := sys_socket_open_socket target.destination target.port
                  AF_INET6 SOCK_STREAM 0 os
  let t := { target with handle := result.1 }
  (t, if result.1 = -1 then none else some t,
   [Event.lockT] ++ result.2 ++ [Event.unlockT])

/-- Embedding of `sys_socket_open_udp4_target` (as `tcp4`, with
(`AF_INET`, `SOCK_DGRAM`, 0)). -/
def sys_socket_open_udp4_target (os : OS) (target : network_target) :
    network_target × Option network_target × List Event :=
  let result := sys_socket_open_socket target.destination target.port
                  AF_INET SOCK_DGRAM 0 os
  let t := { target with handle := result.1 }
  (t, if result.1 = -1 then none else some t,
   [Event.lockT] ++ result.2 ++ [Event.unlockT])

/-- Embedding of `sys_socket_open_udp6_target` (as `tcp4`, with
(`AF_INET6`, `SOCK_DGRAM`, 0)). -/
def sys_socket_open_udp6_target (os : OS) (target : network_target) :
    network_target × Option network_target × List Event :=
  let result := sys_socket_open_socket target.destination target.port
                  AF_INET6 SOCK_DGRAM 0 os
  let t := { target with handle := result.1 }
  (t, if result.1 = -1 then none else some t,
   [Event.lockT] ++ result.2 ++ [Event.unlockT])

/-- Embedding of `sys_socket_reopen_tcp4_target`: under the lock, when the
target is open close the current descriptor and rerun the open-socket
primitive with (`AF_INET`, `SOCK_STREAM`, 0), storing the result; the
target pointer is returned unconditionally. -/
def sys_socket_reopen_tcp4_target (os : OS) (target : network_target) :
    network_target × Option network_target × List Event :=
  if sys_socket_network_target_is_open target then
    let r := sys_socket_open_socket target.destination target.port
               AF_INET SOCK_STREAM 0 os
    let t := { target with handle := r.1 }
    (t, some t, [Event.lockT, Event.closeFd target.handle] ++ r.2
                  ++ [Event.unlockT])
  else
    (target, some target, [Event.lockT, Event.unlockT])

/-- Embedding of `sys_socket_reopen_tcp6_target`
(with (`AF_INET6`, `SOCK_STREAM`, 0)). -/
def sys_socket_reopen_tcp6_target (os : OS) (target : network_target) :
    network_target × Option network_target × List Event :=
  if sys_socket_network_target_is_open target then
    let r := sys_socket_open_socket target.destination target.port
               AF_INET6 SOCK_STREAM 0 os
    let t := { target with handle := r.1 }
    (t, some t, [Event.lockT, Event.closeFd target.handle] ++ r.2
                  ++ [Event.unlockT])
  else
    (target, some target, [Event.lockT, Event.unlockT])

/-- Embedding of `sys_socket_reopen_udp4_target`
(with (`AF_INET`, `SOCK_DGRAM`, 0)). -/
def sys_socket_reopen_udp4_target (os : OS) (target : network_target) :
    network_target × Option network_target × List Event :=
  if sys_socket_network_target_is_open target then
    let r := sys_socket_open_socket target.destination target.port
               AF_INET SOCK_DGRAM 0 os
    let t := { target with handle := r.1 }
    (t, some t, [Event.lockT, Event.closeFd target.handle] ++ r.2
                  ++ [Event.unlockT])
  else
    (target, some target, [Event.lockT, Event.unlockT])

/-- Embedding of `sys_socket_reopen_udp6_target`
(with (`AF_INET6`, `SOCK_DGRAM`, 0)). -/
def sys_socket_reopen_udp6_target (os : OS) (target : network_target) :
    network_target × Option network_target × List Event :=
  if sys_socket_network_target_is_open target then
    let r := sys_socket_open_socket target.destination target.port
               AF_INET6 SOCK_DGRAM 0 os
    let t := { target with handle := r.1 }
    (t, some t, [Event.lockT, Event.closeFd target.handle] ++ r.2
                  ++ [Event.unlockT])
  else
    (target, some target, [Event.lockT, Event.unlockT])

/-- Embedding of `sys_socket_sendto_target`: under the lock, call `send`
on the current handle (no handle check), release the lock, and raise a
send failure with `errno` exactly when the call returned −1; return the
`send` result. -/
def sys_socket_sendto_target (os : OS) (target : network_target)
    (msg : String) (msg_length : Nat) :
    network_target × Int × List Event :=
  let result := os.sendRes
  (target, result,
   [Event.lockT, Event.sendCall target.handle msg_length, Event.unlockT]
     ++ (if result = -1 then
           [Event.raiseSendFailure os.sendErrno CodeKind.errnoKind]
         else []))

/-- A `closeFd` event: a descriptor release. -/
def isClose : Event → Bool
  | Event.closeFd _ => true
  | _ => false

/-- A `freeaddrinfoCall` event: release of the resolved address list. -/
def isFree : Event → Bool
  | Event.freeaddrinfoCall => true
  | _ => false

/-- A `socketCall` that actually produced a descriptor (result ≠ −1):
acquisition of a socket resource. -/
def isSocketAcquire : Event → Bool
  | Event.socketCall _ _ _ res => res ≠ -1
  | _ => false

/-- A `getaddrinfoCall` that succeeded (status 0): acquisition of an
address-list resource. -/
def isAddrAcquire : Event → Bool
  | Event.getaddrinfoCall res => res = 0
  | _ => false

/-- Any invocation of the error sink. -/
def isRaise : Event → Bool
  | Event.raiseSocketFailure _ _ => true
  | Event.raiseAddressFailure _ _ => true
  | Event.raiseConnectFailure _ _ => true
  | Event.raiseSendFailure _ _ => true
  | _ => false

/-- An error-sink invocation classified as a send failure. -/
def isSendRaise : Event → Bool
  | Event.raiseSendFailure _ _ => true
  | _ => false

/-- A `destroyMutex` event. -/
def isDestroy : Event → Bool
  | Event.destroyMutex => true
  | _ => false

/-- The (domain, socket-type) argument pairs of the `socketCall` events of
a trace, in order. -/
def socketParamsOf (tr : List Event) : List (Int × Int) :=
  tr.filterMap fun e =>
    match e with
    | Event.socketCall d ty _ _ => some (d, ty)
    | _ => none

/-- C1: in `sys_socket_open_socket`, every exit path releases exactly the
resources acquired up to that point: no descriptor is closed and no
address list is freed on socket-creation failure; exactly the socket is
closed on address-resolution failure; both the address list and the
socket are released on connect failure; on success only the address list
is released and the created descriptor is returned.  Consequently sockets
acquired = sockets closed + (1 if the descriptor is returned), and
address lists acquired = address lists freed, on every branch. -/
theorem open_socket_resource_balance (dest port : String)
    (domain ty protocol : Int) (os : OS) :
    ((sys_socket_open_socket dest port domain ty protocol os).2.countP isClose
        = if os.socketRes = -1 then 0
          else if os.gaiRes ≠ 0 then 1
          else if os.connectRes = -1 then 1 else 0)
  ∧ ((sys_socket_open_socket dest port domain ty protocol os).2.countP isFree
        = if os.socketRes = -1 then 0
          else if os.gaiRes ≠ 0 then 0 else 1)
  ∧ ((sys_socket_open_socket dest port domain ty protocol os).2.countP
        isSocketAcquire
        = (sys_socket_open_socket dest port domain ty protocol os).2.countP
            isClose
          + (if (sys_socket_open_socket dest port domain ty protocol os).1
                = -1 then 0 else 1))
  ∧ ((sys_socket_open_socket dest port domain ty protocol os).2.countP
        isAddrAcquire
        = (sys_socket_open_socket dest port domain ty protocol os).2.countP
            isFree)
  ∧ ((sys_socket_open_socket dest port domain ty protocol os).1
        = if os.socketRes = -1 ∨ os.gaiRes ≠ 0 ∨ os.connectRes = -1
          then -1 else os.socketRes) := by
  unfold sys_socket_open_socket
  by_cases h1 : os.socketRes = -1
  · simp [h1, isClose, isFree, isSocketAcquire, isAddrAcquire]
  · by_cases h2 : os.gaiRes = 0
    · by_cases h3 : os.connectRes = -1
      · simp [h1, h2, h3, isClose, isFree, isSocketAcquire, isAddrAcquire]
      · simp [h1, h2, h3, isClose, isFree, isSocketAcquire, isAddrAcquire]
    · simp [h1, h2, isClose, isFree, isSocketAcquire, isAddrAcquire]

/-- `socketParamsOf` distributes over concatenation. -/
lemma socketParamsOf_append (a b : List Event) :
    socketParamsOf (a ++ b) = socketParamsOf a ++ socketParamsOf b := by
  simp [socketParamsOf]

/-- A leading lock acquisition carries no socket parameters. -/
lemma socketParamsOf_cons_lock (l : List Event) :
    socketParamsOf (Event.lockT :: l) = socketParamsOf l := by
  simp [socketParamsOf]

/-- A leading descriptor close carries no socket parameters. -/
lemma socketParamsOf_cons_close (x : Int) (l : List Event) :
    socketParamsOf (Event.closeFd x :: l) = socketParamsOf l := by
  simp [socketParamsOf]

/-- A lone lock release carries no socket parameters. -/
lemma socketParamsOf_unlock : socketParamsOf [Event.unlockT] = [] := by
  simp [socketParamsOf]

/-- On every branch, the open-socket primitive performs exactly one
`socket` system call, with the (domain, type) pair it was given. -/
lemma socketParamsOf_open_socket (dest port : String)
    (domain ty protocol : Int) (os : OS) :
    socketParamsOf
        (sys_socket_open_socket dest port domain ty protocol os).2
      = [(domain, ty)] := by
  unfold sys_socket_open_socket socketParamsOf
  by_cases h1 : os.socketRes = -1 <;>
    by_cases h2 : os.gaiRes = 0 <;>
    by_cases h3 : os.connectRes = -1 <;>
    simp [h1, h2, h3]

/-- Structural form of `sys_socket_reopen_tcp4_target` on an open
target. -/
lemma reopen_tcp4_eq_of_open (os : OS) (t : network_target)
    (h : sys_socket_network_target_is_open t = true) :
    sys_socket_reopen_tcp4_target os t =
      ({ t with handle := (sys_socket_open_socket t.destination t.port
            AF_INET SOCK_STREAM 0 os).1 },
       some { t with handle := (sys_socket_open_socket t.destination t.port
            AF_INET SOCK_STREAM 0 os).1 },
       [Event.lockT, Event.closeFd t.handle]
         ++ (sys_socket_open_socket t.destination t.port
              AF_INET SOCK_STREAM 0 os).2
         ++ [Event.unlockT]) := by
  unfold sys_socket_reopen_tcp4_target
  simp [h]

/-- Structural form of `sys_socket_reopen_tcp6_target` on an open
target. -/
lemma reopen_tcp6_eq_of_open (os : OS) (t : network_target)
    (h : sys_socket_network_target_is_open t = true) :
    sys_socket_reopen_tcp6_target os t =
      ({ t with handle := (sys_socket_open_socket t.destination t.port
            AF_INET6 SOCK_STREAM 0 os).1 },
       some { t with handle := (sys_socket_open_socket t.destination t.port
            AF_INET6 SOCK_STREAM 0 os).1 },
       [Event.lockT, Event.closeFd t.handle]
         ++ (sys_socket_open_socket t.destination t.port
              AF_INET6 SOCK_STREAM 0 os).2
         ++ [Event.unlockT]) := by
  unfold sys_socket_reopen_tcp6_target
  simp [h]

/-- Structural form of `sys_socket_reopen_udp4_target` on an open
target. -/
lemma reopen_udp4_eq_of_open (os : OS) (t : network_target)
    (h : sys_socket_network_target_is_open t = true) :
    sys_socket_reopen_udp4_target os t =
      ({ t with handle := (sys_socket_open_socket t.destination t.port
            AF_INET SOCK_DGRAM 0 os).1 },
       some { t with handle := (sys_socket_open_socket t.destination t.port
            AF_INET SOCK_DGRAM 0 os).1 },
       [Event.lockT, Event.closeFd t.handle]
         ++ (sys_socket_open_socket t.destination t.port
              AF_INET SOCK_DGRAM 0 os).2
         ++ [Event.unlockT]) := by
  unfold sys_socket_reopen_udp4_target
  simp [h]

/-- Structural form of `sys_socket_reopen_udp6_target` on an open
target. -/
lemma reopen_udp6_eq_of_open (os : OS) (t : network_target)
    (h : sys_socket_network_target_is_open t = true) :
    sys_socket_reopen_udp6_target os t =
      ({ t with handle := (sys_socket_open_socket t.destination t.port
            AF_INET6 SOCK_DGRAM 0 os).1 },
       some { t with handle := (sys_socket_open_socket t.destination t.port
            AF_INET6 SOCK_DGRAM 0 os).1 },
       [Event.lockT, Event.closeFd t.handle]
         ++ (sys_socket_open_socket t.destination t.port
              AF_INET6 SOCK_DGRAM 0 os).2
         ++ [Event.unlockT]) := by
  unfold sys_socket_reopen_udp6_target
  simp [h]

/-- The trace of `sys_socket_open_tcp4_target` wraps the primitive's
trace in a lock/unlock pair. -/
lemma open_tcp4_trace (os : OS) (t : network_target) :
    (sys_socket_open_tcp4_target os t).2.2
      = [Event.lockT]
          ++ (sys_socket_open_socket t.destination t.port
               AF_INET SOCK_STREAM 0 os).2
          ++ [Event.unlockT] := by
  unfold sys_socket_open_tcp4_target
  simp

/-- The trace of `sys_socket_open_tcp6_target` wraps the primitive's
trace in a lock/unlock pair. -/
lemma open_tcp6_trace (os : OS) (t : network_target) :
    (sys_socket_open_tcp6_target os t).2.2
      = [Event.lockT]
          ++ (sys_socket_open_socket t.destination t.port
               AF_INET6 SOCK_STREAM 0 os).2
          ++ [Event.unlockT] := by
  unfold sys_socket_open_tcp6_target
  simp

/-- The trace of `sys_socket_open_udp4_target` wraps the primitive's
trace in a lock/unlock pair. -/
lemma open_udp4_trace (os : OS) (t : network_target) :
    (sys_socket_open_udp4_target os t).2.2
      = [Event.lockT]
          ++ (sys_socket_open_socket t.destination t.port
               AF_INET SOCK_DGRAM 0 os).2
          ++ [Event.unlockT] := by
  unfold sys_socket_open_udp4_target
  simp

/-- The trace of `sys_socket_open_udp6_target` wraps the primitive's
trace in a lock/unlock pair. -/
lemma open_udp6_trace (os : OS) (t : network_target) :
    (sys_socket_open_udp6_target os t).2.2
      = [Event.lockT]
          ++ (sys_socket_open_socket t.destination t.port
               AF_INET6 SOCK_DGRAM 0 os).2
          ++ [Event.unlockT] := by
  unfold sys_socket_open_udp6_target
  simp

/-- C2: a reopen call on a target that is currently open closes the
existing descriptor first (immediately after acquiring the lock, before
the connect attempt and hence before the new handle is stored), and
repeats the connect attempt with the same (family, socket-type) pair that
the corresponding open variant passes to the primitive; the value stored
into `handle` is the primitive's result.  Stated for all four variants,
against an arbitrary oracle `os2` and target `t2` for the open side. -/
theorem reopen_closes_and_retries_same_params (os os2 : OS)
    (t t2 : network_target)
    (hopen : sys_socket_network_target_is_open t = true) :
    (((sys_socket_reopen_tcp4_target os t).2.2.take 2
        = [Event.lockT, Event.closeFd t.handle])
      ∧ socketParamsOf (sys_socket_reopen_tcp4_target os t).2.2
          = socketParamsOf (sys_socket_open_tcp4_target os2 t2).2.2
      ∧ (sys_socket_reopen_tcp4_target os t).1.handle
          = (sys_socket_open_socket t.destination t.port
              AF_INET SOCK_STREAM 0 os).1)
  ∧ (((sys_socket_reopen_tcp6_target os t).2.2.take 2
        = [Event.lockT, Event.closeFd t.handle])
      ∧ socketParamsOf (sys_socket_reopen_tcp6_target os t).2.2
          = socketParamsOf (sys_socket_open_tcp6_target os2 t2).2.2
      ∧ (sys_socket_reopen_tcp6_target os t).1.handle
          = (sys_socket_open_socket t.destination t.port
              AF_INET6 SOCK_STREAM 0 os).1)
  ∧ (((sys_socket_reopen_udp4_target os t).2.2.take 2
        = [Event.lockT, Event.closeFd t.handle])
      ∧ socketParamsOf (sys_socket_reopen_udp4_target os t).2.2
          = socketParamsOf (sys_socket_open_udp4_target os2 t2).2.2
      ∧ (sys_socket_reopen_udp4_target os t).1.handle
          = (sys_socket_open_socket t.destination t.port
              AF_INET SOCK_DGRAM 0 os).1)
  ∧ (((sys_socket_reopen_udp6_target os t).2.2.take 2
        = [Event.lockT, Event.closeFd t.handle])
      ∧ socketParamsOf (sys_socket_reopen_udp6_target os t).2.2
          = socketParamsOf (sys_socket_open_udp6_target os2 t2).2.2
      ∧ (sys_socket_reopen_udp6_target os t).1.handle
          = (sys_socket_open_socket t.destination t.port
              AF_INET6 SOCK_DGRAM 0 os).1) := by
  refine ⟨⟨?_, ?_, ?_⟩, ⟨?_, ?_, ?_⟩, ⟨?_, ?_, ?_⟩, ?_, ?_, ?_⟩
  · simp [reopen_tcp4_eq_of_open os t hopen]
  · simp [reopen_tcp4_eq_of_open os t hopen, open_tcp4_trace,
      socketParamsOf_append, socketParamsOf_open_socket,
      socketParamsOf_cons_lock, socketParamsOf_cons_close,
      socketParamsOf_unlock]
  · simp [reopen_tcp4_eq_of_open os t hopen]
  · simp [reopen_tcp6_eq_of_open os t hopen]
  · simp [reopen_tcp6_eq_of_open os t hopen, open_tcp6_trace,
      socketParamsOf_append, socketParamsOf_open_socket,
      socketParamsOf_cons_lock, socketParamsOf_cons_close,
      socketParamsOf_unlock]
  · simp [reopen_tcp6_eq_of_open os t hopen]
  · simp [reopen_udp4_eq_of_open os t hopen]
  · simp [reopen_udp4_eq_of_open os t hopen, open_udp4_trace,
      socketParamsOf_append, socketParamsOf_open_socket,
      socketParamsOf_cons_lock, socketParamsOf_cons_close,
      socketParamsOf_unlock]
  · simp [reopen_udp4_eq_of_open os t hopen]
  · simp [reopen_udp6_eq_of_open os t hopen]
  · simp [reopen_udp6_eq_of_open os t hopen, open_udp6_trace,
      socketParamsOf_append, socketParamsOf_open_socket,
      socketParamsOf_cons_lock, socketParamsOf_cons_close,
      socketParamsOf_unlock]
  · simp [reopen_udp6_eq_of_open os t hopen]

/-- C2 witness: on a concrete open target and concrete oracles, the tcp4
conjunct holds with its hypothesis discharged by evaluation. -/
theorem reopen_closes_and_retries_same_params_witness :
    (sys_socket_reopen_tcp4_target
        ⟨5, 0, 0, 0, 0, 0, 0⟩ ⟨"h", "p", 7⟩).2.2.take 2
      = [Event.lockT, Event.closeFd 7] :=
  (reopen_closes_and_retries_same_params
    ⟨5, 0, 0, 0, 0, 0, 0⟩ ⟨5, 0, 0, 0, 0, 0, 0⟩
    ⟨"h", "p", 7⟩ ⟨"h", "p", 7⟩ (by decide)).1.1

/-- C3: every open variant stores the primitive's result (descriptor or
−1 sentinel) into `handle`, and returns the target itself exactly when
the stored handle is not the sentinel, `none` (NULL, no distinct object)
exactly when it is. -/
theorem open_variants_store_and_return (os : OS) (t : network_target) :
    ((sys_socket_open_tcp4_target os t).1.handle
        = (sys_socket_open_socket t.destination t.port
            AF_INET SOCK_STREAM 0 os).1
      ∧ ((sys_socket_open_tcp4_target os t).2.1
            = some (sys_socket_open_tcp4_target os t).1
          ↔ (sys_socket_open_tcp4_target os t).1.handle ≠ -1)
      ∧ ((sys_socket_open_tcp4_target os t).2.1 = none
          ↔ (sys_socket_open_tcp4_target os t).1.handle = -1))
  ∧ ((sys_socket_open_tcp6_target os t).1.handle
        = (sys_socket_open_socket t.destination t.port
            AF_INET6 SOCK_STREAM 0 os).1
      ∧ ((sys_socket_open_tcp6_target os t).2.1
            = some (sys_socket_open_tcp6_target os t).1
          ↔ (sys_socket_open_tcp6_target os t).1.handle ≠ -1)
      ∧ ((sys_socket_open_tcp6_target os t).2.1 = none
          ↔ (sys_socket_open_tcp6_target os t).1.handle = -1))
  ∧ ((sys_socket_open_udp4_target os t).1.handle
        = (sys_socket_open_socket t.destination t.port
            AF_INET SOCK_DGRAM 0 os).1
      ∧ ((sys_socket_open_udp4_target os t).2.1
            = some (sys_socket_open_udp4_target os t).1
          ↔ (sys_socket_open_udp4_target os t).1.handle ≠ -1)
      ∧ ((sys_socket_open_udp4_target os t).2.1 = none
          ↔ (sys_socket_open_udp4_target os t).1.handle = -1))
  ∧ ((sys_socket_open_udp6_target os t).1.handle
        = (sys_socket_open_socket t.destination t.port
            AF_INET6 SOCK_DGRAM 0 os).1
      ∧ ((sys_socket_open_udp6_target os t).2.1
            = some (sys_socket_open_udp6_target os t).1
          ↔ (sys_socket_open_udp6_target os t).1.handle ≠ -1)
      ∧ ((sys_socket_open_udp6_target os t).2.1 = none
          ↔ (sys_socket_open_udp6_target os t).1.handle = -1)) := by
  unfold sys_socket_open_tcp4_target sys_socket_open_tcp6_target
    sys_socket_open_udp4_target sys_socket_open_udp6_target
  by_cases hr : (sys_socket_open_socket t.destination t.port
      AF_INET SOCK_STREAM 0 os).1 = -1 <;>
  by_cases hr6 : (sys_socket_open_socket t.destination t.port
      AF_INET6 SOCK_STREAM 0 os).1 = -1 <;>
  by_cases hu4 : (sys_socket_open_socket t.destination t.port
      AF_INET SOCK_DGRAM 0 os).1 = -1 <;>
  by_cases hu6 : (sys_socket_open_socket t.destination t.port
      AF_INET6 SOCK_DGRAM 0 os).1 = -1 <;>
  simp [hr, hr6, hu4, hu6]


/-- C4: `sys_socket_sendto_target` returns exactly the result of the
underlying `send` call; when and only when that call fails (returns −1)
exactly one error-sink invocation occurs, classified as a send failure
and carrying the OS error code; the `send` system call is issued on the
current handle unconditionally — a sentinel handle is not specially
checked but passed through. -/
theorem sendto_result_and_failure_report (os : OS) (t : network_target)
    (msg : String) (len : Nat) :
    ((sys_socket_sendto_target os t msg len).2.1 = os.sendRes)
  ∧ (Event.sendCall t.handle len
      ∈ (sys_socket_sendto_target os t msg len).2.2)
  ∧ ((sys_socket_sendto_target os t msg len).2.2.countP isRaise
      = if os.sendRes = -1 then 1 else 0)
  ∧ ((sys_socket_sendto_target os t msg len).2.2.count
        (Event.raiseSendFailure os.sendErrno CodeKind.errnoKind)
      = if os.sendRes = -1 then 1 else 0) := by
  unfold sys_socket_sendto_target
  by_cases h : os.sendRes = -1 <;>
    simp [h, isRaise, List.count_cons, List.count_nil]

/-- C5: every reopen variant returns the target itself (a non-NULL
pointer, here `some` of the final state) unconditionally, even when the
oracle makes the new connect attempt fail; on an open target the failure
is then observable only through `is_open`, which turns false.  By
contrast, `open` returns the failure indicator `none` exactly under the
same underlying failure conditions. -/
theorem reopen_always_returns_target (os : OS) (t : network_target) :
    ((sys_socket_reopen_tcp4_target os t).2.1
        = some (sys_socket_reopen_tcp4_target os t).1)
  ∧ ((sys_socket_reopen_tcp6_target os t).2.1
        = some (sys_socket_reopen_tcp6_target os t).1)
  ∧ ((sys_socket_reopen_udp4_target os t).2.1
        = some (sys_socket_reopen_udp4_target os t).1)
  ∧ ((sys_socket_reopen_udp6_target os t).2.1
        = some (sys_socket_reopen_udp6_target os t).1)
  ∧ ((sys_socket_open_tcp4_target os t).2.1 = none
      ↔ (os.socketRes = -1 ∨ os.gaiRes ≠ 0 ∨ os.connectRes = -1))
  ∧ (sys_socket_network_target_is_open t = true →
      (os.socketRes = -1 ∨ os.gaiRes ≠ 0 ∨ os.connectRes = -1) →
      sys_socket_network_target_is_open
        (sys_socket_reopen_tcp4_target os t).1 = false) := by
  refine ⟨?_, ?_, ?_, ?_, ?_, ?_⟩
  · unfold sys_socket_reopen_tcp4_target
    by_cases h : sys_socket_network_target_is_open t <;> simp [h]
  · unfold sys_socket_reopen_tcp6_target
    by_cases h : sys_socket_network_target_is_open t <;> simp [h]
  · unfold sys_socket_reopen_udp4_target
    by_cases h : sys_socket_network_target_is_open t <;> simp [h]
  · unfold sys_socket_reopen_udp6_target
    by_cases h : sys_socket_network_target_is_open t <;> simp [h]
  · unfold sys_socket_open_tcp4_target sys_socket_open_socket
    by_cases h1 : os.socketRes = -1 <;>
      by_cases h2 : os.gaiRes = 0 <;>
      by_cases h3 : os.connectRes = -1 <;>
      simp [h1, h2, h3]
  · intro hopen hfail
    rw [reopen_tcp4_eq_of_open os t hopen]
    unfold sys_socket_network_target_is_open sys_socket_open_socket
    rcases hfail with h1 | h2 | h3
    · simp [h1]
    · by_cases h1 : os.socketRes = -1 <;> simp [h1, h2]
    · by_cases h1 : os.socketRes = -1 <;>
        by_cases h2 : os.gaiRes = 0 <;> simp [h1, h2, h3]

/-- C5 witness: on a concrete open target whose reopen connect attempt
fails, the reopen still returns the target and `is_open` is false
afterward. -/
theorem reopen_always_returns_target_witness :
    sys_socket_network_target_is_open
        (sys_socket_reopen_tcp4_target
          ⟨4, 0, 0, -1, 111, 0, 0⟩ ⟨"h", "p", 7⟩).1 = false :=
  (reopen_always_returns_target
      ⟨4, 0, 0, -1, 111, 0, 0⟩ ⟨"h", "p", 7⟩).2.2.2.2.2
    (by decide) (Or.inr (Or.inr (by decide)))

/-- C6: every reopen variant on a target whose handle is the sentinel is
a no-op apart from the lock round-trip: the state, including the
sentinel handle, is unchanged, the target is returned, and the trace is
exactly lock acquisition followed by release — no socket call, no
connect attempt, no error report. -/
theorem reopen_noop_when_closed (os : OS) (t : network_target)
    (h : t.handle = -1) :
    (sys_socket_reopen_tcp4_target os t
        = (t, some t, [Event.lockT, Event.unlockT]))
  ∧ (sys_socket_reopen_tcp6_target os t
        = (t, some t, [Event.lockT, Event.unlockT]))
  ∧ (sys_socket_reopen_udp4_target os t
        = (t, some t, [Event.lockT, Event.unlockT]))
  ∧ (sys_socket_reopen_udp6_target os t
        = (t, some t, [Event.lockT, Event.unlockT])) := by
  unfold sys_socket_reopen_tcp4_target sys_socket_reopen_tcp6_target
    sys_socket_reopen_udp4_target sys_socket_reopen_udp6_target
    sys_socket_network_target_is_open
  simp [h]

/-- C6 witness: a concrete never-opened target is left untouched by a
tcp4 reopen under an oracle that would have succeeded. -/
theorem reopen_noop_when_closed_witness :
    sys_socket_reopen_tcp4_target ⟨9, 0, 0, 0, 0, 0, 0⟩ ⟨"h", "p", -1⟩
      = (⟨"h", "p", -1⟩, some ⟨"h", "p", -1⟩,
         [Event.lockT, Event.unlockT]) :=
  (reopen_noop_when_closed ⟨9, 0, 0, 0, 0, 0, 0⟩ ⟨"h", "p", -1⟩ rfl).1

/-- C7: `sys_socket_close_network_target` closes the OS descriptor
exactly when the handle is not the sentinel (and then closes exactly that
descriptor, once), never closes anything on a never-opened target, and
destroys the mutex exactly once in every case. -/
theorem close_target_releases (t : network_target) :
    ((Event.closeFd t.handle ∈ sys_socket_close_network_target t)
        ↔ t.handle ≠ -1)
  ∧ ((sys_socket_close_network_target t).countP isClose
        = if t.handle = -1 then 0 else 1)
  ∧ ((sys_socket_close_network_target t).countP isDestroy = 1)
  ∧ (∀ fd : Int, Event.closeFd fd ∈ sys_socket_close_network_target t →
        fd = t.handle ∧ t.handle ≠ -1) := by
  unfold sys_socket_close_network_target
  by_cases h : t.handle = -1 <;>
    simp [h, isClose, isDestroy]

/-- C7 witness: tearing down a concrete open target closes exactly its
descriptor; the closed descriptor seen in the trace is the stored one. -/
theorem close_target_releases_witness :
    (5 : Int) = network_target.handle ⟨"h", "p", 5⟩
      ∧ network_target.handle ⟨"h", "p", 5⟩ ≠ -1 :=
  (close_target_releases ⟨"h", "p", 5⟩).2.2.2 5 (by decide)

/-- C8: no operation changes `destination` or `port`: all four open
variants and all four reopen variants return a state that differs from
the input at most in `handle`, and send returns the state entirely
unchanged (`is_open` is pure by construction, returning only a Bool). -/
theorem operations_preserve_destination_port (os : OS)
    (t : network_target) (msg : String) (len : Nat) :
    ((sys_socket_open_tcp4_target os t).1.destination = t.destination
      ∧ (sys_socket_open_tcp4_target os t).1.port = t.port)
  ∧ ((sys_socket_open_tcp6_target os t).1.destination = t.destination
      ∧ (sys_socket_open_tcp6_target os t).1.port = t.port)
  ∧ ((sys_socket_open_udp4_target os t).1.destination = t.destination
      ∧ (sys_socket_open_udp4_target os t).1.port = t.port)
  ∧ ((sys_socket_open_udp6_target os t).1.destination = t.destination
      ∧ (sys_socket_open_udp6_target os t).1.port = t.port)
  ∧ ((sys_socket_reopen_tcp4_target os t).1.destination = t.destination
      ∧ (sys_socket_reopen_tcp4_target os t).1.port = t.port)
  ∧ ((sys_socket_reopen_tcp6_target os t).1.destination = t.destination
      ∧ (sys_socket_reopen_tcp6_target os t).1.port = t.port)
  ∧ ((sys_socket_reopen_udp4_target os t).1.destination = t.destination
      ∧ (sys_socket_reopen_udp4_target os t).1.port = t.port)
  ∧ ((sys_socket_reopen_udp6_target os t).1.destination = t.destination
      ∧ (sys_socket_reopen_udp6_target os t).1.port = t.port)
  ∧ ((sys_socket_sendto_target os t msg len).1 = t) := by
  refine ⟨?_, ?_, ?_, ?_, ?_, ?_, ?_, ?_, ?_⟩
  · unfold sys_socket_open_tcp4_target
    simp
  · unfold sys_socket_open_tcp6_target
    simp
  · unfold sys_socket_open_udp4_target
    simp
  · unfold sys_socket_open_udp6_target
    simp
  · by_cases h : sys_socket_network_target_is_open t <;>
      simp [sys_socket_reopen_tcp4_target, h]
  · by_cases h : sys_socket_network_target_is_open t <;>
      simp [sys_socket_reopen_tcp6_target, h]
  · by_cases h : sys_socket_network_target_is_open t <;>
      simp [sys_socket_reopen_udp4_target, h]
  · by_cases h : sys_socket_network_target_is_open t <;>
      simp [sys_socket_reopen_udp6_target, h]
  · unfold sys_socket_sendto_target
    simp

/-- Regardless of the (domain, type, protocol) arguments, the
open-socket primitive returns −1 exactly on its three failure
branches. -/
lemma open_socket_fail_iff (dest port : String)
    (domain ty protocol : Int) (os : OS) :
    (sys_socket_open_socket dest port domain ty protocol os).1 = -1
      ↔ (os.socketRes = -1 ∨ os.gaiRes ≠ 0 ∨ os.connectRes = -1) := by
  unfold sys_socket_open_socket
  by_cases h1 : os.socketRes = -1 <;>
    by_cases h2 : os.gaiRes = 0 <;>
    by_cases h3 : os.connectRes = -1 <;>
    simp [h1, h2, h3]

/-- The only descriptor the open-socket primitive ever closes is the one
it just created. -/
lemma open_socket_close_only_new (dest port : String)
    (domain ty protocol : Int) (os : OS) (fd : Int)
    (hmem : Event.closeFd fd
      ∈ (sys_socket_open_socket dest port domain ty protocol os).2) :
    fd = os.socketRes := by
  unfold sys_socket_open_socket at hmem
  by_cases h1 : os.socketRes = -1 <;>
    by_cases h2 : os.gaiRes = 0 <;>
    by_cases h3 : os.connectRes = -1 <;>
    simp_all

/-- C9: for every open variant (TCP4, TCP6, UDP4, UDP6): the open-socket
primitive it calls returns −1 (the sentinel) exactly on its failure
branches; the variant stores the primitive's result into `handle`
unconditionally, so after a failed open `is_open` is false (it is false
exactly when open returned the failure indicator), regardless of the
previous handle; and no descriptor other than the newly created one is
ever closed during open — in particular a previously stored handle that
differs from the new descriptor is overwritten without being closed. -/
theorem failed_open_overwrites_handle (os : OS) (t : network_target) :
    (((sys_socket_open_socket t.destination t.port
          AF_INET SOCK_STREAM 0 os).1 = -1
        ↔ (os.socketRes = -1 ∨ os.gaiRes ≠ 0 ∨ os.connectRes = -1))
      ∧ ((sys_socket_open_tcp4_target os t).1.handle
          = (sys_socket_open_socket t.destination t.port
              AF_INET SOCK_STREAM 0 os).1)
      ∧ (sys_socket_network_target_is_open
            (sys_socket_open_tcp4_target os t).1 = false
          ↔ (sys_socket_open_tcp4_target os t).2.1 = none)
      ∧ (∀ fd : Int,
          Event.closeFd fd ∈ (sys_socket_open_tcp4_target os t).2.2 →
            fd = os.socketRes)
      ∧ (t.handle ≠ os.socketRes →
          Event.closeFd t.handle
            ∉ (sys_socket_open_tcp4_target os t).2.2))
  ∧ (((sys_socket_open_socket t.destination t.port
          AF_INET6 SOCK_STREAM 0 os).1 = -1
        ↔ (os.socketRes = -1 ∨ os.gaiRes ≠ 0 ∨ os.connectRes = -1))
      ∧ ((sys_socket_open_tcp6_target os t).1.handle
          = (sys_socket_open_socket t.destination t.port
              AF_INET6 SOCK_STREAM 0 os).1)
      ∧ (sys_socket_network_target_is_open
            (sys_socket_open_tcp6_target os t).1 = false
          ↔ (sys_socket_open_tcp6_target os t).2.1 = none)
      ∧ (∀ fd : Int,
          Event.closeFd fd ∈ (sys_socket_open_tcp6_target os t).2.2 →
            fd = os.socketRes)
      ∧ (t.handle ≠ os.socketRes →
          Event.closeFd t.handle
            ∉ (sys_socket_open_tcp6_target os t).2.2))
  ∧ (((sys_socket_open_socket t.destination t.port
          AF_INET SOCK_DGRAM 0 os).1 = -1
        ↔ (os.socketRes = -1 ∨ os.gaiRes ≠ 0 ∨ os.connectRes = -1))
      ∧ ((sys_socket_open_udp4_target os t).1.handle
          = (sys_socket_open_socket t.destination t.port
              AF_INET SOCK_DGRAM 0 os).1)
      ∧ (sys_socket_network_target_is_open
            (sys_socket_open_udp4_target os t).1 = false
          ↔ (sys_socket_open_udp4_target os t).2.1 = none)
      ∧ (∀ fd : Int,
          Event.closeFd fd ∈ (sys_socket_open_udp4_target os t).2.2 →
            fd = os.socketRes)
      ∧ (t.handle ≠ os.socketRes →
          Event.closeFd t.handle
            ∉ (sys_socket_open_udp4_target os t).2.2))
  ∧ (((sys_socket_open_socket t.destination t.port
          AF_INET6 SOCK_DGRAM 0 os).1 = -1
        ↔ (os.socketRes = -1 ∨ os.gaiRes ≠ 0 ∨ os.connectRes = -1))
      ∧ ((sys_socket_open_udp6_target os t).1.handle
          = (sys_socket_open_socket t.destination t.port
              AF_INET6 SOCK_DGRAM 0 os).1)
      ∧ (sys_socket_network_target_is_open
            (sys_socket_open_udp6_target os t).1 = false
          ↔ (sys_socket_open_udp6_target os t).2.1 = none)
      ∧ (∀ fd : Int,
          Event.closeFd fd ∈ (sys_socket_open_udp6_target os t).2.2 →
            fd = os.socketRes)
      ∧ (t.handle ≠ os.socketRes →
          Event.closeFd t.handle
            ∉ (sys_socket_open_udp6_target os t).2.2)) := by
  have h4tcp4 : ∀ fd : Int,
      Event.closeFd fd ∈ (sys_socket_open_tcp4_target os t).2.2 →
        fd = os.socketRes := by
    rw [open_tcp4_trace]
    intro fd hmem
    simp only [List.mem_append, List.mem_singleton, List.mem_cons,
      List.not_mem_nil, or_false] at hmem
    rcases hmem with (h | h) | h
    · exact absurd h (by simp)
    · exact open_socket_close_only_new t.destination t.port
        AF_INET SOCK_STREAM 0 os fd h
    · exact absurd h (by simp)
  have h4tcp6 : ∀ fd : Int,
      Event.closeFd fd ∈ (sys_socket_open_tcp6_target os t).2.2 →
        fd = os.socketRes := by
    rw [open_tcp6_trace]
    intro fd hmem
    simp only [List.mem_append, List.mem_singleton, List.mem_cons,
      List.not_mem_nil, or_false] at hmem
    rcases hmem with (h | h) | h
    · exact absurd h (by simp)
    · exact open_socket_close_only_new t.destination t.port
        AF_INET6 SOCK_STREAM 0 os fd h
    · exact absurd h (by simp)
  have h4udp4 : ∀ fd : Int,
      Event.closeFd fd ∈ (sys_socket_open_udp4_target os t).2.2 →
        fd = os.socketRes := by
    rw [open_udp4_trace]
    intro fd hmem
    simp only [List.mem_append, List.mem_singleton, List.mem_cons,
      List.not_mem_nil, or_false] at hmem
    rcases hmem with (h | h) | h
    · exact absurd h (by simp)
    · exact open_socket_close_only_new t.destination t.port
        AF_INET SOCK_DGRAM 0 os fd h
    · exact absurd h (by simp)
  have h4udp6 : ∀ fd : Int,
      Event.closeFd fd ∈ (sys_socket_open_udp6_target os t).2.2 →
        fd = os.socketRes := by
    rw [open_udp6_trace]
    intro fd hmem
    simp only [List.mem_append, List.mem_singleton, List.mem_cons,
      List.not_mem_nil, or_false] at hmem
    rcases hmem with (h | h) | h
    · exact absurd h (by simp)
    · exact open_socket_close_only_new t.destination t.port
        AF_INET6 SOCK_DGRAM 0 os fd h
    · exact absurd h (by simp)
  refine ⟨⟨open_socket_fail_iff t.destination t.port AF_INET SOCK_STREAM 0 os,
            ?_, ?_, h4tcp4, fun hne hmem => hne (h4tcp4 t.handle hmem)⟩,
          ⟨open_socket_fail_iff t.destination t.port AF_INET6 SOCK_STREAM 0 os,
            ?_, ?_, h4tcp6, fun hne hmem => hne (h4tcp6 t.handle hmem)⟩,
          ⟨open_socket_fail_iff t.destination t.port AF_INET SOCK_DGRAM 0 os,
            ?_, ?_, h4udp4, fun hne hmem => hne (h4udp4 t.handle hmem)⟩,
          ⟨open_socket_fail_iff t.destination t.port AF_INET6 SOCK_DGRAM 0 os,
            ?_, ?_, h4udp6, fun hne hmem => hne (h4udp6 t.handle hmem)⟩⟩
  · unfold sys_socket_open_tcp4_target
    simp
  · unfold sys_socket_open_tcp4_target sys_socket_network_target_is_open
    by_cases hr : (sys_socket_open_socket t.destination t.port
        AF_INET SOCK_STREAM 0 os).1 = -1 <;> simp [hr]
  · unfold sys_socket_open_tcp6_target
    simp
  · unfold sys_socket_open_tcp6_target sys_socket_network_target_is_open
    by_cases hr : (sys_socket_open_socket t.destination t.port
        AF_INET6 SOCK_STREAM 0 os).1 = -1 <;> simp [hr]
  · unfold sys_socket_open_udp4_target
    simp
  · unfold sys_socket_open_udp4_target sys_socket_network_target_is_open
    by_cases hr : (sys_socket_open_socket t.destination t.port
        AF_INET SOCK_DGRAM 0 os).1 = -1 <;> simp [hr]
  · unfold sys_socket_open_udp6_target
    simp
  · unfold sys_socket_open_udp6_target sys_socket_network_target_is_open
    by_cases hr : (sys_socket_open_socket t.destination t.port
        AF_INET6 SOCK_DGRAM 0 os).1 = -1 <;> simp [hr]

/-- C9 witness: with an oracle on which socket creation fails and a
target that was previously open on descriptor 5, neither the tcp4 open
nor the udp6 open closes descriptor 5 (the old handle is overwritten,
not released). -/
theorem failed_open_overwrites_handle_witness :
    (Event.closeFd 5 ∉
      (sys_socket_open_tcp4_target ⟨-1, 24, 0, 0, 0, 0, 0⟩
        ⟨"h", "p", 5⟩).2.2)
  ∧ (Event.closeFd 5 ∉
      (sys_socket_open_udp6_target ⟨-1, 24, 0, 0, 0, 0, 0⟩
        ⟨"h", "p", 5⟩).2.2) :=
  ⟨(failed_open_overwrites_handle ⟨-1, 24, 0, 0, 0, 0, 0⟩
      ⟨"h", "p", 5⟩).1.2.2.2.2 (by decide),
   (failed_open_overwrites_handle ⟨-1, 24, 0, 0, 0, 0, 0⟩
      ⟨"h", "p", 5⟩).2.2.2.2.2.2.2 (by decide)⟩

/-- C10: the critical section of `sys_socket_sendto_target` is exactly
the first three trace events — lock, the `send` call, unlock — and
contains no error-sink invocation; every raise in the trace lies in the
suffix after the unlock, so the send-failure report is issued only after
the lock has been released. -/
theorem send_failure_raised_after_unlock (os : OS) (t : network_target)
    (msg : String) (len : Nat) :
    ((sys_socket_sendto_target os t msg len).2.2.take 3
        = [Event.lockT, Event.sendCall t.handle len, Event.unlockT])
  ∧ (((sys_socket_sendto_target os t msg len).2.2.take 3).countP
        isRaise = 0)
  ∧ ((sys_socket_sendto_target os t msg len).2.2.countP isRaise
      = ((sys_socket_sendto_target os t msg len).2.2.drop 3).countP
          isRaise) := by
  unfold sys_socket_sendto_target
  by_cases h : os.sendRes = -1 <;> simp [h, isRaise]

end SysSocket
